import Mathlib

/-!
Verification of the Beluga session manager (src/Beluga.js).

Modelling conventions:
- JavaScript strings are modelled as lists of unicode characters (`JStr`);
  string literals from the source appear as Lean string literals converted
  with `.data`.
- JavaScript numeric timestamps (milliseconds from `Date.now()`) are
  modelled as integers, so subtraction and comparison behave as in the
  source.
- The module-level `sessions` map (a JavaScript `Map` keyed by thread id)
  is modelled as an association list; `Map.delete` and `Map.set` are
  embedded below as `regDelete` and `regSet`.
- `async` functions that only await fallible platform calls are modelled
  as pure functions taking explicit failure flags; a `try/catch` block that
  swallows a failure becomes a branch on the corresponding flag, and the
  embedded function being total in those flags is the image of "the failure
  is logged and never escapes to the caller".
-/

namespace Beluga

/-- JavaScript strings, modelled as lists of unicode characters. -/
abbrev JStr := List Char

/-- Source constant `MEMORY_LIMIT = 40` (keep last 40 turns). -/
def MEMORY_LIMIT : Nat := 40

/-- Source constant `TTL_MS = 20 * 60 * 1000` (20 minutes inactivity). -/
def TTL_MS : Int := 20 * 60 * 1000

/-- Source constant `COOLDOWN_MS = 1_000`. -/
def COOLDOWN_MS : Int := 1000

/-- Source constant `MAX_TOKENS = 800`. -/
def MAX_TOKENS : Nat := 800

/-- Source constant `THREAD_PREFIX = 'beluga-cat'` (suffixed name here only
for local naming conventions). -/
def THREAD_PREFIX_STR : String := "beluga-cat"

/-- Source constant `REQUIRE_PREFIX = false`. -/
def REQUIRE_PREFIX_FLAG : Bool := false

/-- Source constant `TRIGGER_PREFIX = '?'`. -/
def TRIGGER_PREFIX_STR : String := "?"

/-- Source default `GEMINI_MODEL = 'gemini-2.5-flash-lite'`. -/
def GEMINI_MODEL : String := "gemini-2.5-flash-lite"

/-- Source default `SYSTEM_PROMPT` (the environment default from the
destructuring of `process.env`). -/
def SYSTEM_PROMPT : String :=
  "You are a discord user if user are chating or serious questioning you academic question, academic respond should be no more than 1000 varcharacters. If user is chating you can join the coversation casually, limited in 150 characters."

/-- Decides membership in the JavaScript regular-expression class `\s`
(the whitespace set used by `replace(/\s+/g, ' ')` and by
`String.prototype.trim`). -/
def isWsJS (c : Char) : Bool :=
  c = ' ' || c = '\t' || c = '\n' || c = '\r'
    || c.val = 0x0B || c.val = 0x0C || c.val = 0xA0 || c.val = 0x1680
    || (0x2000 ≤ c.val && c.val ≤ 0x200A)
    || c.val = 0x2028 || c.val = 0x2029 || c.val = 0x202F
    || c.val = 0x205F || c.val = 0x3000 || c.val = 0xFEFF

/-- Embeds JavaScript `String.prototype.trim`: removes whitespace from both
ends. -/
def trimJS (l : JStr) : JStr :=
  ((l.dropWhile isWsJS).reverse.dropWhile isWsJS).reverse

/-- Embeds `.replace(/\s+/g, ' ')`: every maximal run of whitespace becomes
a single space. -/
def collapseWsRuns : JStr → JStr
  | [] => []
  | [c] => if isWsJS c then [' '] else [c]
  | a :: b :: rest =>
    if isWsJS a && isWsJS b then collapseWsRuns (b :: rest)
    else (if isWsJS a then ' ' else a) :: collapseWsRuns (b :: rest)

/-- Embeds JavaScript `String.prototype.toLowerCase`, accurate on the ASCII
range (sufficient for the checks against the all-ASCII thread marker). -/
def toLowerL (l : JStr) : JStr :=
  l.map Char.toLower

/-- Text after the first occurrence of `sep`, or `none` when `sep` does
not occur; this is exactly what `name.split(sep).slice(1).join(sep)`
computes when `name.includes(sep)`, since splitting, dropping the first
field and re-joining with `sep` restores everything past the first
occurrence. -/
def afterFirst (sep : JStr) : JStr → Option JStr
  | [] => none
  | c :: rest =>
    if sep.isPrefixOf (c :: rest) then some ((c :: rest).drop sep.length)
    else afterFirst sep rest

/-- Embeds JavaScript `String.prototype.replace` with a plain-string
pattern: only the first occurrence is replaced. -/
def replaceFirst (pat repl : JStr) : JStr → JStr
  | [] => []
  | c :: rest =>
    if pat.isPrefixOf (c :: rest) then repl ++ (c :: rest).drop pat.length
    else c :: replaceFirst pat repl rest

/-- One conversational-memory entry, as pushed by the source:
an object `{ role, content }` whose role field is the string "user" or
"assistant". -/
structure Entry where
  role : JStr
  content : JStr
deriving DecidableEq, Repr

/-- Session state, as initialised in `startThreadSession` and
`ensureSessionFromExistingThread` and mutated by `handleThreadMessage` and
`resetSession`.  The `lastSpeaker` field is absent (undefined) on a fresh
session and cleared by `resetSession`, hence an `Option`. -/
structure Session where
  topic : JStr
  startedBy : String
  lastActive : Int
  cooldownUntil : Int
  memory : List Entry
  lastSpeaker : Option String
deriving DecidableEq, Repr

/-- Embeds `trimMemory` (src/Beluga.js lines 343-346):
`const extra = memory.length - MEMORY_LIMIT; if (extra > 0) memory.splice(0, extra);`
removes `extra` entries from the front in a single step when the bound is
exceeded. -/
def trimMemory (memory : List Entry) : List Entry :=
  if 0 < (memory.length : Int) - (MEMORY_LIMIT : Int) then
    memory.drop ((memory.length : Int) - (MEMORY_LIMIT : Int)).toNat
  else
    memory

/-- The append-then-trim pair recording one turn
(`session.memory.push({ role, content }); trimMemory(session.memory);` in
`handleThreadMessage` and `sendReply`); the specification calls this
operation `recordTurn`. -/
def recordTurn (memory : List Entry) (e : Entry) : List Entry :=
  trimMemory (memory ++ [e])

/-- Embeds `resetSession(thread, session)` for a non-null session
(src/Beluga.js lines 401-408): clears memory, refreshes `lastActive`,
resets `cooldownUntil` to 0 and clears `lastSpeaker`. -/
def resetSession (s : Session) (now : Int) : Session :=
  { s with
    memory := [],
    lastActive := now,
    cooldownUntil := 0,
    lastSpeaker := none }

/-- Session object built by `startThreadSession` (src/Beluga.js lines
297-303). -/
def startSessionInit (topic : JStr) (authorId : String) (now : Int) : Session :=
  { topic := topic, startedBy := authorId, lastActive := now,
    cooldownUntil := 0, memory := [], lastSpeaker := none }

/-- Embeds `prefixThreadName(name, prefix = 'ARCHIVED')` (src/Beluga.js
lines 181-191): whitespace runs in the marker are collapsed and trimmed;
when the name already starts with `[marker] ` or `marker ` it is returned
unchanged, otherwise `[marker] ` is prepended and the result cut to the
100-character Discord limit. -/
def prefixThreadName (name : JStr) (marker : JStr := "ARCHIVED".data) : JStr :=
  if ('[' :: (trimJS (collapseWsRuns marker) ++ [']', ' '])).isPrefixOf name
      || (trimJS (collapseWsRuns marker) ++ [' ']).isPrefixOf name then
    name
  else
    (('[' :: (trimJS (collapseWsRuns marker) ++ [']', ' '])) ++ name).take 100

/-- Embeds `handleThreadMessage(message, session)` (src/Beluga.js lines
317-341).  `oracle` stands for `getModelReply` as a function of the memory
it is handed; `botId` is `client.user.id`; `raw` is `message.content`;
`now` is the `Date.now()` sample of line 326.  Returns the session after
the handler, whether the reply provider was called, and the reply sent to
the channel, if any. -/
def handleThreadMessage (oracle : List Entry → JStr) (botId : String)
    (s : Session) (authorId : String) (raw : JStr) (now : Int) :
    Session × Bool × Option JStr :=
  if REQUIRE_PREFIX_FLAG && !(TRIGGER_PREFIX_STR.data.isPrefixOf raw) then
    (s, false, none)
  else
    let content :=
      if REQUIRE_PREFIX_FLAG then trimJS (raw.drop TRIGGER_PREFIX_STR.data.length)
      else trimJS raw
    if content.isEmpty then (s, false, none)
    else if s.cooldownUntil > now then (s, false, none)
    else
      let s1 : Session :=
        { s with
          lastActive := now,
          lastSpeaker := some authorId,
          memory := trimMemory (s.memory ++ [Entry.mk "user".data content]),
          cooldownUntil := now + COOLDOWN_MS }
      let reply := oracle s1.memory
      let s2 : Session :=
        { s1 with
          memory := trimMemory (s1.memory ++ [Entry.mk "assistant".data reply]),
          lastSpeaker := some botId }
      (s2, true, some reply)

/-- The in-memory session registry (`const sessions = new Map()`), as an
association list from thread id to session. -/
abbrev Registry := List (String × Session)

/-- Embeds `sessions.delete(id)`; on the association-list model this drops
every pair carrying the key (the map itself holds it at most once). -/
def regDelete (k : String) (r : Registry) : Registry :=
  r.filter (fun p => p.1 != k)

/-- Embeds `sessions.set(id, session)`: replaces the value at an existing
key in place, otherwise appends (JavaScript `Map` insertion-order
semantics). -/
def regSet (k : String) (v : Session) : Registry → Registry
  | [] => [(k, v)]
  | p :: rest => if p.1 == k then (k, v) :: rest else p :: regSet k v rest

/-- The slice of a Discord thread-channel object that the session manager
reads or writes: identifier, display name, archived flag, and whether the
channel has been deleted. -/
structure ThreadCh where
  id : String
  name : JStr
  archived : Bool
  deleted : Bool
deriving DecidableEq, Repr

/-- Failure injection for the fallible platform calls awaited by
`endSession`: each flag makes the corresponding call throw; the source
catches every one of them. -/
structure EndFails where
  sendFail : Bool
  deleteFail : Bool
  renameFail : Bool
  archiveFail : Bool
deriving DecidableEq, Repr

/-- Observable channel-side events of `endSession`, in program order. -/
inductive EndEv where
  | sentNotice (reason : String)
  | warned (what : String)
  | deletedThread
  | renamed (newName : JStr)
  | archivedThread
deriving DecidableEq, Repr

/-- Embeds `endSession(thread, reason)` (src/Beluga.js lines 368-399).
The registry entry is removed first; the notice, delete, rename and
archive steps each sit in their own `try/catch`, so a failure (flag set)
produces only a `warned` event and is swallowed.  Under the delete-on-end
policy a successful delete returns early; a failed delete falls through to
the rename-and-archive path.  The function is total in all failure flags,
which is the shallow-embedding image of "no side-effect failure escapes to
the caller". -/
def endSession (shouldDeleteOnEnd : Bool) (f : EndFails) (reg : Registry)
    (th : ThreadCh) (reason : String) : Registry × ThreadCh × List EndEv :=
  let reg1 := regDelete th.id reg
  let evs1 : List EndEv :=
    if f.sendFail then [EndEv.warned "Could not send end notice"]
    else [EndEv.sentNotice reason]
  if shouldDeleteOnEnd && !f.deleteFail then
    (reg1, { th with deleted := true }, evs1 ++ [EndEv.deletedThread])
  else
    let evs2 := evs1 ++
      (if shouldDeleteOnEnd then
        [EndEv.warned "Could not delete thread, falling back to archive"]
      else [])
    let renamedName := prefixThreadName th.name "ARCHIVED".data
    let st3 : ThreadCh × List EndEv :=
      if renamedName ≠ th.name then
        if f.renameFail then
          (th, evs2 ++ [EndEv.warned "Could not rename thread before archive"])
        else ({ th with name := renamedName }, evs2 ++ [EndEv.renamed renamedName])
      else (th, evs2)
    let st4 : ThreadCh × List EndEv :=
      if !st3.1.archived then
        if f.archiveFail then
          (st3.1, st3.2 ++ [EndEv.warned "Could not archive thread"])
        else ({ st3.1 with archived := true }, st3.2 ++ [EndEv.archivedThread])
      else st3
    (reg1, st4.1, st4.2)

/-- The reaper expiry test (src/Beluga.js line 518):
`now - session.lastActive > TTL_MS`. -/
def expiredQ (now : Int) (s : Session) : Bool :=
  decide (now - s.lastActive > TTL_MS)

/-- Which of the reaper's two removal paths ran for an expired session. -/
inductive ReapEv where
  | endedSession (id : String) (reason : String)
  | removedDirect (id : String)
deriving DecidableEq, Repr

/-- Embeds one tick of the inactivity reaper (src/Beluga.js lines
515-524): for each registry entry past the TTL, resolve the backing
channel from the cache (`resolvable` models `client.channels.cache.get`);
when found, call `endSession` with the timeout reason — whose first action
removes the registry entry — otherwise delete the registry entry directly
without the channel-side effects.  The event list records which path ran
for which thread id.  `reapStep` is the loop body for one registry entry;
`reaperSweep` folds it over the entries. -/
def reapStep (now : Int) (resolvable : String → Bool)
    (acc : Registry × List ReapEv) (e : String × Session) :
    Registry × List ReapEv :=
  if expiredQ now e.2 then
    if resolvable e.1 then
      (regDelete e.1 acc.1,
        acc.2 ++ [ReapEv.endedSession e.1 "Session timed out after inactivity."])
    else
      (regDelete e.1 acc.1, acc.2 ++ [ReapEv.removedDirect e.1])
  else acc

/-- The reaper tick is a left fold of `reapStep` over the session map,
starting from the map itself and an empty event trace. -/
def reaperSweep (now : Int) (resolvable : String → Bool) (reg : Registry) :
    Registry × List ReapEv :=
  reg.foldl (reapStep now resolvable) (reg, [])

/-- Registry-only effect of one reaper step, used to analyse the sweep. -/
def regStepExpired (now : Int) (r : Registry) (e : String × Session) : Registry :=
  if expiredQ now e.2 then regDelete e.1 r else r

/-- Event trace of one reaper tick over the entries of `l`. -/
def reapTrace (now : Int) (resolvable : String → Bool) (l : Registry) : List ReapEv :=
  (l.filter (fun e => expiredQ now e.2)).map
    (fun e =>
      if resolvable e.1 then
        ReapEv.endedSession e.1 "Session timed out after inactivity."
      else ReapEv.removedDirect e.1)

/-- Whether an entry of the starting registry survives the deletions that
the reaper performs while iterating over `l`. -/
def keySurvives (now : Int) (l : Registry) (p : String × Session) : Bool :=
  l.all (fun e => !(expiredQ now e.2) || p.1 != e.1)

/-- One element of the `contents` array of the Gemini request. -/
structure GContent where
  role : JStr
  parts : List JStr
deriving DecidableEq, Repr

/-- The JSON body built by `getGeminiReply`, less the floating-point
temperature (irrelevant to the claims). -/
structure GBody where
  model : String
  systemInstructionParts : List JStr
  contents : List GContent
  maxOutputTokens : Nat
deriving DecidableEq, Repr

/-- Embeds the per-entry mapping of `getGeminiReply` (lines 480-483):
`{ role: m.role === 'assistant' ? 'model' : 'user', parts: [{ text: m.content }] }`. -/
def toGContent (m : Entry) : GContent :=
  { role := if m.role = "assistant".data then "model".data else "user".data,
    parts := [m.content] }

/-- One iteration of the `mergedMemory` accumulation loop of
`getGeminiReply` (src/Beluga.js lines 472-479): a message whose role
matches the last accumulated entry is folded into it, joining contents
with a newline; otherwise it is appended. -/
def mergeStep (acc : List Entry) (msg : Entry) : List Entry :=
  match acc.getLast? with
  | some last =>
    if last.role = msg.role then
      acc.dropLast
        ++ [{ role := last.role, content := last.content ++ '\n' :: msg.content }]
    else acc ++ [msg]
  | none => acc ++ [msg]

/-- The coalesced transcript `mergedMemory` computed by `getGeminiReply`. -/
def mergeMemory (memory : List Entry) : List Entry :=
  memory.foldl mergeStep []

/-- Embeds the request body built and transmitted by `getGeminiReply`
(src/Beluga.js lines 470-501): `mergedMemory` is computed but the
transmitted `contents` field maps the ORIGINAL memory entry by entry, and
the system prompt goes into the dedicated `systemInstruction` field, not
into the transcript. -/
def geminiRequestBody (memory : List Entry) : GBody :=
  let _mergedMemory := mergeMemory memory
  { model := GEMINI_MODEL,
    systemInstructionParts := [SYSTEM_PROMPT.data],
    contents := memory.map toGContent,
    maxOutputTokens := MAX_TOKENS }

/-- Discord channel kinds distinguished by the dispatch code. -/
inductive ChannelKind where
  | GuildText
  | GuildVoice
  | GuildAnnouncement
  | DM
  | PublicThread
  | PrivateThread
deriving DecidableEq, Repr

/-- Embeds `channel.isThread()`. -/
def ChannelKind.isThread : ChannelKind → Bool
  | .PublicThread => true
  | .PrivateThread => true
  | _ => false

/-- Outcome of dispatching a message or interaction with respect to
starting a session. -/
inductive AskOutcome where
  | startedSession (topic : JStr)
  | threadPath
  | ignored
  | userMessage (text : String)
deriving DecidableEq, Repr

/-- Embeds the `/ask` topic computed by the MessageCreate handler
(line 155): `message.content.replace('/ask', '').trim() || 'chat'`. -/
def askTopicOfContent (content : JStr) : JStr :=
  if (trimJS (replaceFirst "/ask".data [] content)).isEmpty then "chat".data
  else trimJS (replaceFirst "/ask".data [] content)

/-- Embeds the MessageCreate dispatch relevant to session start
(src/Beluga.js lines 149-178): bot authors are ignored; `/ask` in a guild
text channel starts a thread session; messages in a thread go to the
thread-command path; everything else falls through silently.  In
particular no error of any kind is surfaced when `/ask` is typed in a
channel kind that cannot host threads. -/
def messageCreateDispatch (authorBot : Bool) (content : JStr)
    (kind : ChannelKind) : AskOutcome :=
  if authorBot then .ignored
  else if "/ask".data.isPrefixOf content && (kind == ChannelKind.GuildText) then
    .startedSession (askTopicOfContent content)
  else if kind.isThread then .threadPath
  else .ignored

/-- Embeds the `/ask` branch of the InteractionCreate handler
(src/Beluga.js lines 228-237): outside a guild text channel it replies
with a user-visible notice; otherwise it starts a thread session with the
trimmed question, defaulting to "chat". -/
def interactionAskDispatch (kind : ChannelKind) (question : Option JStr) :
    AskOutcome :=
  if kind != ChannelKind.GuildText then
    .userMessage "Use this in a server text channel."
  else
    .startedSession
      (match question with
        | some q => if (trimJS q).isEmpty then "chat".data else trimJS q
        | none => "chat".data)

/-- The separator literal exactly as it stands in src/Beluga.js (lines 289
and 414): the file holds the bytes C3 A2, E2 82 AC, C2 A2, which decode to
the three characters U+00E2, U+20AC, U+00A2 — a mojibake double-encoding
of the intended bullet U+2022. -/
def SEP_SEQ : JStr :=
  [Char.ofNat 0xE2, Char.ofNat 0x20AC, Char.ofNat 0xA2]

/-- Embeds the topic parse of `ensureSessionFromExistingThread` (line
414): `name.includes(sep) ? name.split(sep).slice(1).join(sep).trim() || 'chat' : 'chat'`;
split-drop-rejoin on the same separator is exactly the text after its
first occurrence (`afterFirst`). -/
def parseThreadTopic (name : JStr) : JStr :=
  match afterFirst SEP_SEQ name with
  | some rest => if (trimJS rest).isEmpty then "chat".data else trimJS rest
  | none => "chat".data

/-- Embeds `ensureSessionFromExistingThread(thread)` (src/Beluga.js lines
410-426) for a thread with no registry entry: checks the case-insensitive
`beluga-cat` name marker, parses the topic, builds a fresh session with
the owner id (or the sentinel "unknown") and registers it. -/
def ensureSessionFromExistingThread (reg : Registry) (thrId : String)
    (name : JStr) (ownerId : Option String) (now : Int) :
    Option Session × Registry :=
  if !((toLowerL THREAD_PREFIX_STR.data).isPrefixOf (toLowerL name)) then
    (none, reg)
  else
    let session : Session :=
      { topic := parseThreadTopic name, startedBy := ownerId.getD "unknown",
        lastActive := now, cooldownUntil := 0, memory := [],
        lastSpeaker := none }
    (some session, regSet thrId session reg)

/-- Concrete session used by witnesses. -/
def demoSession : Session :=
  { topic := "chat".data, startedBy := "u1", lastActive := 0,
    cooldownUntil := 0, memory := [], lastSpeaker := none }

/-- Concrete thread channel used by witnesses. -/
def demoThread : ThreadCh :=
  { id := "t1", name := "beluga-cat".data, archived := false,
    deleted := false }

/-- Concrete registry used by the reaper witness: at `now = 2000000`, the
first session was last active `TTL_MS + 1` milliseconds ago (expired) and
the second `TTL_MS - 1` milliseconds ago (fresh). -/
def demoReg : Registry :=
  [("a", { demoSession with lastActive := 2000000 - (TTL_MS + 1) }),
    ("b", { demoSession with lastActive := 2000000 - (TTL_MS - 1) })]

theorem trimMemory_eq_drop (m : List Entry) :
    trimMemory m = m.drop (m.length - MEMORY_LIMIT) := by
  unfold trimMemory
  split
  · next h =>
    congr 1
    omega
  · next h =>
    have hz : m.length - MEMORY_LIMIT = 0 := by omega
    rw [hz, List.drop_zero]

theorem recordTurn_eq_drop (m : List Entry) (e : Entry) :
    recordTurn m e = (m ++ [e]).drop (m.length + 1 - MEMORY_LIMIT) := by
  rw [recordTurn, trimMemory_eq_drop]
  congr 1
  simp

theorem recordTurn_length (m : List Entry) (e : Entry) :
    (recordTurn m e).length = min (m.length + 1) MEMORY_LIMIT := by
  rw [recordTurn_eq_drop]
  simp only [List.length_drop, List.length_append, List.length_cons,
    List.length_nil]
  omega

theorem foldl_recordTurn_eq_drop (es : List Entry) :
    ∀ m : List Entry, m.length ≤ MEMORY_LIMIT →
      es.foldl recordTurn m = (m ++ es).drop (m.length + es.length - MEMORY_LIMIT) := by
  induction es with
  | nil =>
    intro m hm
    have hz : m.length - MEMORY_LIMIT = 0 := by omega
    simp [hz]
  | cons e rest ih =>
    intro m hm
    have hlen : (recordTurn m e).length ≤ MEMORY_LIMIT := by
      rw [recordTurn_length]; omega
    rw [List.foldl_cons, ih (recordTurn m e) hlen, recordTurn_length,
      recordTurn_eq_drop]
    have hd : m.length + 1 - MEMORY_LIMIT ≤ (m ++ [e]).length := by
      simp only [List.length_append, List.length_cons, List.length_nil]
      omega
    rw [← List.drop_append_of_le_length hd, List.drop_drop]
    have hassoc : (m ++ [e]) ++ rest = m ++ e :: rest := by
      simp
    rw [hassoc]
    congr 1
    simp only [List.length_cons]
    omega

/-- C1: every turn-recording operation (append one `{role, content}` entry,
then `trimMemory`) leaves the memory with length at most `MEMORY_LIMIT = 40`;
the surviving entries are exactly the most recent ones of the appended list
in their original relative order (a suffix, obtained by dropping from the
front as many entries as needed in one step); and over any sequence of
`recordTurn` operations starting within the bound, the final memory is
exactly the most recent bounded suffix of the full appended history. -/
theorem C1_memory_bounded_and_suffix (m : List Entry) (e : Entry) (es : List Entry) :
    (recordTurn m e).length ≤ MEMORY_LIMIT
    ∧ recordTurn m e = (m ++ [e]).drop (m.length + 1 - MEMORY_LIMIT)
    ∧ (m.length ≤ MEMORY_LIMIT →
        es.foldl recordTurn m = (m ++ es).drop (m.length + es.length - MEMORY_LIMIT)) := by
  refine ⟨?_, recordTurn_eq_drop m e, fun hm => foldl_recordTurn_eq_drop es m hm⟩
  rw [recordTurn_length]
  omega

/-- Witness for C1 at concrete inputs: a memory of 40 identical entries,
one appended entry, and a two-entry bulk sequence. -/
theorem C1_memory_bounded_and_suffix_witness :
    (List.replicate 40 (Entry.mk "user".data "x".data)).length ≤ MEMORY_LIMIT
    ∧ ((List.replicate 2 (Entry.mk "user".data "y".data)).foldl recordTurn
        (List.replicate 40 (Entry.mk "user".data "x".data))
        = ((List.replicate 40 (Entry.mk "user".data "x".data))
            ++ List.replicate 2 (Entry.mk "user".data "y".data)).drop
            ((List.replicate 40 (Entry.mk "user".data "x".data)).length
              + (List.replicate 2 (Entry.mk "user".data "y".data)).length
              - MEMORY_LIMIT)) := by
  refine ⟨by decide, ?_⟩
  exact (C1_memory_bounded_and_suffix
    (List.replicate 40 (Entry.mk "user".data "x".data))
    (Entry.mk "user".data "x".data)
    (List.replicate 2 (Entry.mk "user".data "y".data))).2.2 (by decide)

theorem prefixThreadName_idem_of_short (name marker : JStr)
    (hm : (trimJS (collapseWsRuns marker)).length + 3 ≤ 100) :
    prefixThreadName (prefixThreadName name marker) marker
      = prefixThreadName name marker := by
  by_cases h :
      (('[' :: (trimJS (collapseWsRuns marker) ++ [']', ' '])).isPrefixOf name
        || (trimJS (collapseWsRuns marker) ++ [' ']).isPrefixOf name) = true
  · have heq : prefixThreadName name marker = name := by
      rw [prefixThreadName, if_pos h]
    rw [heq]
    exact heq
  · have heq : prefixThreadName name marker
        = (('[' :: (trimJS (collapseWsRuns marker) ++ [']', ' '])) ++ name).take 100 := by
      rw [prefixThreadName, if_neg h]
    have hlen : ('[' :: (trimJS (collapseWsRuns marker) ++ [']', ' '])).length ≤ 100 := by
      simp only [List.length_cons, List.length_append, List.length_nil]
      omega
    have hpre : ('[' :: (trimJS (collapseWsRuns marker) ++ [']', ' '])).isPrefixOf
        ((('[' :: (trimJS (collapseWsRuns marker) ++ [']', ' '])) ++ name).take 100)
          = true := by
      rw [List.take_append_eq_append_take, List.take_of_length_le hlen,
        List.isPrefixOf_iff_prefix]
      exact List.prefix_append _ _
    have h2 : prefixThreadName
        ((('[' :: (trimJS (collapseWsRuns marker) ++ [']', ' '])) ++ name).take 100)
        marker
        = (('[' :: (trimJS (collapseWsRuns marker) ++ [']', ' '])) ++ name).take 100 := by
      rw [prefixThreadName, if_pos]
      rw [hpre]
      exact Bool.true_or _
    rw [heq, h2]

/-- C6: `prefixThreadName` is idempotent — for every name, applying it
twice with the same marker yields the same result as applying it once, so
it never double-prefixes (for any marker whose cleaned form fits the
100-character name limit, and unconditionally for the marker "ARCHIVED",
the only one the source uses) — and on the name "beluga-cat • exam help"
with marker "ARCHIVED" it returns "[ARCHIVED] beluga-cat • exam help". -/
theorem C6_prefixThreadName_idempotent (name marker : JStr) :
    ((trimJS (collapseWsRuns marker)).length + 3 ≤ 100 →
        prefixThreadName (prefixThreadName name marker) marker
          = prefixThreadName name marker)
    ∧ prefixThreadName (prefixThreadName name "ARCHIVED".data) "ARCHIVED".data
        = prefixThreadName name "ARCHIVED".data
    ∧ prefixThreadName "beluga-cat • exam help".data "ARCHIVED".data
        = "[ARCHIVED] beluga-cat • exam help".data :=
  ⟨fun hm => prefixThreadName_idem_of_short name marker hm,
    prefixThreadName_idem_of_short name "ARCHIVED".data (by decide),
    by decide⟩

/-- Witness for C6 at the marker "ARCHIVED" and the name "beluga-cat". -/
theorem C6_prefixThreadName_idempotent_witness :
    (trimJS (collapseWsRuns "ARCHIVED".data)).length + 3 ≤ 100
    ∧ prefixThreadName (prefixThreadName "beluga-cat".data "ARCHIVED".data)
        "ARCHIVED".data
        = prefixThreadName "beluga-cat".data "ARCHIVED".data :=
  ⟨by decide,
    (C6_prefixThreadName_idempotent "beluga-cat".data "ARCHIVED".data).1
      (by decide)⟩

/-- C3: a turn arriving while `now < session.cooldownUntil` is dropped
silently: the session (memory, lastActive, lastSpeaker, cooldownUntil) is
returned unchanged, the reply provider is not called, and no reply or
error message is produced. -/
theorem C3_cooldown_silent_drop (oracle : List Entry → JStr) (botId : String)
    (s : Session) (authorId : String) (raw : JStr) (now : Int)
    (h : now < s.cooldownUntil) :
    handleThreadMessage oracle botId s authorId raw now = (s, false, none) := by
  have hg : s.cooldownUntil > now := h
  simp [handleThreadMessage, REQUIRE_PREFIX_FLAG, hg]

/-- Witness for C3: a session under cooldown until time 10 receiving a
non-empty turn at time 5. -/
theorem C3_cooldown_silent_drop_witness :
    (5 : Int) < ({ demoSession with cooldownUntil := 10 } : Session).cooldownUntil
    ∧ handleThreadMessage (fun _ => "ok".data) "b"
        { demoSession with cooldownUntil := 10 } "u2" "hi".data 5
        = ({ demoSession with cooldownUntil := 10 }, false, none) :=
  ⟨by decide, C3_cooldown_silent_drop _ _ _ _ _ _ (by decide)⟩

/-- C10: a message in a managed thread whose content is empty or
whitespace-only after trimming is dropped without mutating the session, no
provider call and no reply (the handler returns before touching any
state). -/
theorem C10_empty_content_silent_drop (oracle : List Entry → JStr)
    (botId : String) (s : Session) (authorId : String) (raw : JStr)
    (now : Int) (h : (trimJS raw).isEmpty = true) :
    handleThreadMessage oracle botId s authorId raw now = (s, false, none) := by
  simp [handleThreadMessage, REQUIRE_PREFIX_FLAG, h]

/-- Witness for C10: a whitespace-only message. -/
theorem C10_empty_content_silent_drop_witness :
    (trimJS "   ".data).isEmpty = true
    ∧ handleThreadMessage (fun _ => "ok".data) "b" demoSession "u2"
        "   ".data 7 = (demoSession, false, none) :=
  ⟨by decide, C10_empty_content_silent_drop _ _ _ _ _ _ (by decide)⟩

/-- C8: `cooldownUntil` is monotonically non-decreasing across the turn
handler — an accepted turn sets it to `now + COOLDOWN_MS`, strictly above
the previous value because the cooldown gate guarantees the previous value
was at most `now`; dropped turns leave it unchanged — fresh sessions
(creation and rehydration initialise it to 0), and only the explicit reset
lowers it, back to 0. -/
theorem C8_cooldown_monotone (oracle : List Entry → JStr) (botId : String)
    (s : Session) (authorId : String) (raw : JStr) (now now2 : Int)
    (topic : JStr) (uid : String) :
    s.cooldownUntil ≤ (handleThreadMessage oracle botId s authorId raw now).1.cooldownUntil
    ∧ ((trimJS raw).isEmpty = false → ¬ s.cooldownUntil > now →
        (handleThreadMessage oracle botId s authorId raw now).1.cooldownUntil
            = now + COOLDOWN_MS
        ∧ s.cooldownUntil < now + COOLDOWN_MS)
    ∧ (resetSession s now2).cooldownUntil = 0
    ∧ (startSessionInit topic uid now2).cooldownUntil = 0 := by
  have hC : COOLDOWN_MS = 1000 := rfl
  refine ⟨?_, fun he hc => ⟨?_, by omega⟩, rfl, rfl⟩
  · by_cases he : (trimJS raw).isEmpty
    · simp [handleThreadMessage, REQUIRE_PREFIX_FLAG, he]
    · by_cases hc : s.cooldownUntil > now
      · simp [handleThreadMessage, REQUIRE_PREFIX_FLAG, he, hc]
      · simp [handleThreadMessage, REQUIRE_PREFIX_FLAG, he, hc]
        omega
  · simp [handleThreadMessage, REQUIRE_PREFIX_FLAG, he, hc]

/-- Witness for C8: an idle session accepting a non-empty turn at time 0.
-/
theorem C8_cooldown_monotone_witness :
    (trimJS "hi".data).isEmpty = false
    ∧ ¬ demoSession.cooldownUntil > (0 : Int)
    ∧ (handleThreadMessage (fun _ => "ok".data) "b" demoSession "u2"
        "hi".data 0).1.cooldownUntil = 0 + COOLDOWN_MS :=
  ⟨by decide, by decide,
    ((C8_cooldown_monotone (fun _ => "ok".data) "b" demoSession "u2"
      "hi".data 0 0 "chat".data "u1").2.1 (by decide) (by decide)).1⟩

theorem lookup_regDelete (k : String) (r : Registry) :
    (regDelete k r).lookup k = none := by
  rw [List.lookup_eq_none_iff]
  intro p hp
  simp only [regDelete, List.mem_filter] at hp
  have h2 := hp.2
  simp only [bne_iff_ne] at h2 ⊢
  exact Ne.symm h2

theorem endSession_fst (sd : Bool) (f : EndFails) (reg : Registry)
    (th : ThreadCh) (reason : String) :
    (endSession sd f reg th reason).1 = regDelete th.id reg := by
  by_cases hbr : (sd && !f.deleteFail) = true
  · simp [endSession, hbr]
  · simp [endSession, hbr]

/-- C2: `endSession` removes the registry entry for the channel first and
unconditionally — the resulting registry is `regDelete` of the original for
every combination of side-effect failures, so the entry is gone even when
notify, delete, rename and archive all fail, and no failure is propagated
(the embedded function is total in the failure flags); when the
delete-on-end policy is set and the delete fails, the archive path is
attempted instead: the thread is not deleted, it is renamed with the
ARCHIVED marker when the rename call succeeds, and set archived when the
archive call succeeds. -/
theorem C2_endSession_unconditional_removal (sd : Bool) (f : EndFails)
    (reg : Registry) (th : ThreadCh) (reason : String) :
    (endSession sd f reg th reason).1 = regDelete th.id reg
    ∧ (endSession sd f reg th reason).1.lookup th.id = none
    ∧ (sd = true → f.deleteFail = true →
        (endSession sd f reg th reason).2.1.deleted = th.deleted
        ∧ (f.renameFail = false →
            (endSession sd f reg th reason).2.1.name
              = prefixThreadName th.name "ARCHIVED".data)
        ∧ (f.archiveFail = false →
            (endSession sd f reg th reason).2.1.archived = true)) := by
  refine ⟨endSession_fst sd f reg th reason, ?_, ?_⟩
  · rw [endSession_fst]
    exact lookup_regDelete th.id reg
  · intro hsd hdf
    have hbr : (sd && !f.deleteFail) = false := by rw [hsd, hdf]; rfl
    by_cases hren : prefixThreadName th.name "ARCHIVED".data = th.name <;>
      cases hrf : f.renameFail <;> cases haf : f.archiveFail <;>
        cases harch : th.archived <;>
          simp [endSession, hbr, hren, hrf, haf, harch]

/-- Witness for C2: a one-entry registry, the delete-on-end policy set, and
the send and delete calls failing. -/
theorem C2_endSession_unconditional_removal_witness :
    (endSession true ⟨true, true, false, false⟩ [("t1", demoSession)]
        demoThread "Session ended by user.").1.lookup "t1" = none
    ∧ (endSession true ⟨true, true, false, false⟩ [("t1", demoSession)]
        demoThread "Session ended by user.").2.1.archived = true :=
  ⟨(C2_endSession_unconditional_removal true ⟨true, true, false, false⟩
      [("t1", demoSession)] demoThread "Session ended by user.").2.1,
    ((C2_endSession_unconditional_removal true ⟨true, true, false, false⟩
      [("t1", demoSession)] demoThread "Session ended by user.").2.2
      rfl rfl).2.2 rfl⟩

theorem reaperSweep_aux (now : Int) (resolvable : String → Bool)
    (l : Registry) :
    ∀ (r : Registry) (evs : List ReapEv),
      l.foldl (reapStep now resolvable) (r, evs)
        = (l.foldl (regStepExpired now) r, evs ++ reapTrace now resolvable l) := by
  induction l with
  | nil =>
    intro r evs
    simp [reapTrace]
  | cons e rest ih =>
    intro r evs
    by_cases hexp : expiredQ now e.2 = true
    · by_cases hres : resolvable e.1 = true
      · simp [List.foldl_cons, reapStep, hexp, hres, ih, reapTrace, regStepExpired]
      · simp [List.foldl_cons, reapStep, hexp, hres, ih, reapTrace, regStepExpired]
    · simp [List.foldl_cons, reapStep, hexp, ih, reapTrace, regStepExpired]

theorem regFold_filter (now : Int) (l : Registry) :
    ∀ r : Registry, l.foldl (regStepExpired now) r = r.filter (keySurvives now l) := by
  induction l with
  | nil =>
    intro r
    have hks : keySurvives now [] = fun _ => true := by
      funext p
      simp [keySurvives]
    rw [List.foldl_nil, hks, List.filter_true]
  | cons e rest ih =>
    intro r
    rw [List.foldl_cons, ih]
    by_cases hexp : expiredQ now e.2 = true
    · rw [regStepExpired, if_pos hexp, regDelete, List.filter_filter]
      refine List.filter_congr ?_
      intro x hx
      simp only [keySurvives, List.all_cons, hexp, Bool.not_true, Bool.false_or]
      exact Bool.and_comm _ _
    · rw [regStepExpired, if_neg hexp]
      have hexp' : expiredQ now e.2 = false := by simpa using hexp
      refine List.filter_congr ?_
      intro x hx
      simp only [keySurvives, List.all_cons, hexp', Bool.not_false, Bool.true_or,
        Bool.true_and]

theorem keySurvives_of_nodup (now : Int) (reg : Registry)
    (hnd : (reg.map Prod.fst).Nodup) :
    ∀ p ∈ reg, keySurvives now reg p = !(expiredQ now p.2) := by
  intro p hp
  by_cases hexp : expiredQ now p.2 = true
  · rw [hexp, Bool.not_true]
    cases hall : keySurvives now reg p with
    | false => rfl
    | true =>
      exfalso
      rw [keySurvives] at hall
      have hmem := List.all_eq_true.mp hall p hp
      rw [hexp] at hmem
      simp at hmem
  · have hexp' : expiredQ now p.2 = false := by simpa using hexp
    rw [hexp', Bool.not_false]
    rw [keySurvives, List.all_eq_true]
    intro x hx
    by_cases hxe : expiredQ now x.2 = true
    · simp only [hxe, Bool.not_true, Bool.false_or, bne_iff_ne]
      intro heq
      have hpx : p = x := List.inj_on_of_nodup_map hnd hp hx heq
      rw [hpx, hxe] at hexp'
      exact Bool.noConfusion hexp'
    · have hxe' : expiredQ now x.2 = false := by simpa using hxe
      simp [hxe']

/-- C5: one reaper tick removes from the registry exactly the sessions with
`now - lastActive > TTL_MS` and preserves the others in place; each expired
session is ended through `endSession` with the timeout reason when the
backing channel resolves, and only its registry entry is removed — with no
channel-side effects — when it does not; in particular a session last
active `TTL_MS + 1` milliseconds ago is expired and one last active
`TTL_MS - 1` milliseconds ago is left untouched. -/
theorem C5_reaper_sweep (now : Int) (resolvable : String → Bool)
    (reg : Registry) (hnd : (reg.map Prod.fst).Nodup) :
    (reaperSweep now resolvable reg).1
        = reg.filter (fun p => !(expiredQ now p.2))
    ∧ (reaperSweep now resolvable reg).2 = reapTrace now resolvable reg
    ∧ (∀ s : Session, expiredQ now s = true ↔ now - s.lastActive > TTL_MS)
    ∧ (∀ s : Session, s.lastActive = now - (TTL_MS + 1) → expiredQ now s = true)
    ∧ (∀ s : Session, s.lastActive = now - (TTL_MS - 1) → expiredQ now s = false) := by
  have h0 : reaperSweep now resolvable reg
      = (reg.foldl (regStepExpired now) reg, reapTrace now resolvable reg) := by
    rw [reaperSweep, reaperSweep_aux now resolvable reg reg []]
    simp
  refine ⟨?_, ?_, ?_, ?_, ?_⟩
  · rw [h0]
    rw [show (reg.foldl (regStepExpired now) reg, reapTrace now resolvable reg).1
        = reg.foldl (regStepExpired now) reg from rfl]
    rw [regFold_filter now reg reg]
    exact List.filter_congr (keySurvives_of_nodup now reg hnd)
  · rw [h0]
  · intro s
    simp [expiredQ]
  · intro s hs
    simp only [expiredQ, hs, decide_eq_true_eq]
    omega
  · intro s hs
    simp only [expiredQ, hs, decide_eq_false_iff_not]
    omega

/-- Witness for C5 at the concrete two-session registry `demoReg`. -/
theorem C5_reaper_sweep_witness :
    ((demoReg.map Prod.fst).Nodup)
    ∧ (reaperSweep 2000000 (fun _ => true) demoReg).1
        = demoReg.filter (fun p => !(expiredQ 2000000 p.2)) :=
  ⟨by decide, (C5_reaper_sweep 2000000 (fun _ => true) demoReg (by decide)).1⟩

/-- C7: the Gemini request body transmits the transcript entry by entry —
`contents` is the role-for-role map of the original memory (assistant to
"model", every other role to "user") and its length always equals the
memory length, so consecutive same-role entries are not collapsed — while
the system prompt travels in the dedicated `systemInstruction` field, not
as a transcript entry; the coalesced `mergedMemory` (shorter on a
two-user-turn transcript, as shown) is not used in the transmitted body. -/
theorem C7_gemini_uncoalesced_transcript (memory : List Entry) :
    (geminiRequestBody memory).contents = memory.map toGContent
    ∧ (geminiRequestBody memory).contents.length = memory.length
    ∧ (geminiRequestBody memory).systemInstructionParts = [SYSTEM_PROMPT.data]
    ∧ toGContent (Entry.mk "assistant".data "x".data)
        = GContent.mk "model".data ["x".data]
    ∧ toGContent (Entry.mk "user".data "x".data)
        = GContent.mk "user".data ["x".data]
    ∧ (mergeMemory [Entry.mk "user".data "a".data,
        Entry.mk "user".data "b".data]).length = 1
    ∧ (geminiRequestBody [Entry.mk "user".data "a".data,
        Entry.mk "user".data "b".data]).contents.length = 2 := by
  refine ⟨rfl, ?_, rfl, by decide, by decide, by decide, by decide⟩
  simp [geminiRequestBody]

/-- C9 counterexample: typing "/ask help" in a guild voice channel — a
channel kind that cannot host threads — is ignored silently by the message
handler: no session starts and no failure signal of any kind is produced
(the source contains no `UnsupportedChannelKind` signal anywhere),
refuting the claim that `startSession` fails with such a signal whenever
the origin channel does not support thread creation. -/
theorem C9_counterexample_silent_ignore :
    messageCreateDispatch false "/ask help".data ChannelKind.GuildVoice
        = AskOutcome.ignored
    ∧ AskOutcome.ignored
        ≠ AskOutcome.userMessage "Use this in a server text channel." := by
  decide

/-- C9 (amended): when the origin channel is not a guild text channel, no
thread session is started: the `/ask` slash-command branch replies with
the user-visible notice "Use this in a server text channel.", and the
plain-message branch never reaches `startThreadSession` (its outcome is
never `startedSession`); the channel-kind check lives in these dispatch
guards, not in `startThreadSession` itself, and there is no dedicated
`UnsupportedChannelKind` signal. -/
theorem C9_amended_kind_guard (kind : ChannelKind) (question : Option JStr)
    (authorBot : Bool) (content : JStr) (topic : JStr)
    (h : kind ≠ ChannelKind.GuildText) :
    interactionAskDispatch kind question
        = AskOutcome.userMessage "Use this in a server text channel."
    ∧ messageCreateDispatch authorBot content kind
        ≠ AskOutcome.startedSession topic := by
  have hkt : (kind == ChannelKind.GuildText) = false := by
    simpa using h
  constructor
  · simp [interactionAskDispatch, h]
  · by_cases hb : authorBot = true <;> by_cases ht : kind.isThread = true <;>
      simp [messageCreateDispatch, hkt, hb, ht]

/-- Witness for C9 (amended) at a guild voice channel. -/
theorem C9_amended_kind_guard_witness :
    (ChannelKind.GuildVoice ≠ ChannelKind.GuildText)
    ∧ interactionAskDispatch ChannelKind.GuildVoice none
        = AskOutcome.userMessage "Use this in a server text channel." :=
  ⟨by decide, (C9_amended_kind_guard ChannelKind.GuildVoice none false
      "/ask help".data "chat".data (by decide)).1⟩

/-- C4 (code evaluated at the claim's inputs): the separator literal in
the source is the mojibake sequence `SEP_SEQ` (U+00E2, U+20AC, U+00A2),
not the bullet U+2022, so rehydrating a thread named
"beluga-cat • exam help" (with a real bullet) finds no separator and
falls back to topic "chat" instead of the claimed "exam help".  The other
behaviours of the claim hold: "beluga-cat" (no separator) gives topic
"chat", "general" (wrong marker) gives null, and a name carrying the
source's actual separator sequence parses the topic after it. -/
theorem C4_rehydration_mojibake_separator :
    parseThreadTopic "beluga-cat • exam help".data = "chat".data
    ∧ "chat".data ≠ "exam help".data
    ∧ (ensureSessionFromExistingThread [] "t1" "beluga-cat • exam help".data
        none 0).1
        = some (Session.mk "chat".data "unknown" 0 0 [] none)
    ∧ parseThreadTopic "beluga-cat".data = "chat".data
    ∧ (ensureSessionFromExistingThread [] "t2" "general".data none 0).1 = none
    ∧ parseThreadTopic ("beluga-cat ".data ++ SEP_SEQ ++ " exam help".data)
        = "exam help".data := by
  decide

end Beluga
